import Mathlib

/-!
Verification development for the rift26-med pharmacogenomic pipeline.

Shallow embedding of the backend services:
* `VcfService.parseVcf`           (src/backend/src/services/vcf.service.ts)
* `RuleEngineService.evaluate`    (src/backend/src/services/vcf.service.ts, ruleEngine part)
* `CacheService.generateSignature` (src/backend/src/services/cache.service.ts)
* `AnalyzeController.analyze`     (controller source)

JavaScript runtime details are modelled explicitly: string records (plain
objects used as maps) are association lists where a later write shadows an
earlier one, truthiness of a string is non-emptiness, and `Math.random()`
is an oracle parameter `rand` with `0 ≤ rand < 1`.
-/

namespace Rift26

/-! ### JS object semantics: a string-keyed record.
Writing prepends, reading returns the most recent write, which matches
`info[key] = value` followed by `info[key]` lookups. -/

def recordSet (m : List (String × String)) (k v : String) : List (String × String) :=
  (k, v) :: m

def recordGet (m : List (String × String)) (k : String) : Option String :=
  List.lookup k m

/-! ### Executable models of the JS string primitives used by the code.
Every separator this program splits on is a single character, so
`String.prototype.split` is modelled on one separator character. -/

/-- JS `str.split(sep)` for a one-character separator: splitting the empty
string gives `[""]`, and adjacent separators give empty segments, as in JS. -/
def splitListOn (sep : Char) : List Char → List (List Char)
  | [] => [[]]
  | c :: rest =>
    let r := splitListOn sep rest
    if c = sep then [] :: r
    else match r with
      | [] => [[c]]
      | x :: xs => (c :: x) :: xs

def jsSplit (s : String) (sep : Char) : List String :=
  (splitListOn sep s.toList).map String.mk

/-- JS `str.startsWith(pre)`. -/
def charListStartsWith : List Char → List Char → Bool
  | [], _ => true
  | _ :: _, [] => false
  | a :: as, b :: bs => a == b && charListStartsWith as bs

def jsStartsWith (s pre : String) : Bool :=
  charListStartsWith pre.toList s.toList

/-- JS `str.toUpperCase()` (ASCII range, which covers every string this
pipeline uppercases). -/
def jsCharUpper (c : Char) : Char :=
  if 97 ≤ c.toNat ∧ c.toNat ≤ 122 then Char.ofNat (c.toNat - 32) else c

def jsToUpper (s : String) : String :=
  String.mk (s.toList.map jsCharUpper)

/-! ### VcfService (vcf.service.ts lines 2-84) -/

def TARGET_GENES : List String :=
  ["CYP2D6", "CYP2C19", "CYP2C9", "SLCO1B1", "TPMT", "DPYD"]

structure ParsedVariant where
  gene : String
  rsId : String
  starAllele : Option String
  chromosome : String
  position : String
  ref : String
  alt : String
  info : List (String × String)
deriving DecidableEq

/-- One step of the INFO-field loop (vcf.service.ts lines 45-52):
`const [key, value] = part.split('=')` keeps only the first two pieces;
`if (key && value)` stores the value, `else if (key)` stores the flag
string `"true"`. -/
def infoStep (info : List (String × String)) (part : String) : List (String × String) :=
  match jsSplit part '=' with
  | [] => info
  | [k] => if k = "" then info else recordSet info k "true"
  | k :: v :: _ =>
    if k = "" then info
    else if v = "" then recordSet info k "true"
    else recordSet info k v

/-- INFO parsing (vcf.service.ts lines 43-52): split on `;`, fold the
segments into the record. -/
def parseInfo (infoStr : String) : List (String × String) :=
  (jsSplit infoStr ';').foldl infoStep []

/-- Processing of a single VCF line (vcf.service.ts lines 30-78).
Returns `none` exactly when the source `continue`s, `some` when it pushes. -/
def parseLine (line : String) : Option ParsedVariant :=
  if line = "" then none
  else if jsStartsWith line "#" then none
  else match jsSplit line '\t' with
    | chrom :: pos :: id :: ref :: alt :: _qual :: _filter :: infoStr :: _ =>
      if chrom = "" ∨ pos = "" ∨ ref = "" ∨ alt = "" ∨ infoStr = "" then none
      else match recordGet (parseInfo infoStr) "GENE" with
        | none => none
        | some gene =>
          if gene = "" then none
          else if TARGET_GENES.contains gene then
            some {
              gene := gene
              rsId := if id ≠ "" ∧ id ≠ "." then id else ""
              starAllele := match recordGet (parseInfo infoStr) "STAR" with
                | some s => if s = "" then none else some s
                | none => none
              chromosome := chrom
              position := pos
              ref := ref
              alt := alt
              info := parseInfo infoStr }
          else none
    | _ => none

/-- Embedding of `VcfService.parseVcf`: split the content on newlines and push the
surviving records in source order. -/
def parseVcf (vcfContent : String) : List ParsedVariant :=
  (jsSplit vcfContent '\n').foldl
    (fun variants line =>
      match parseLine line with
      | some v => variants ++ [v]
      | none => variants)
    []

/-! ### RuleEngineService (ruleEngine source lines 107-211) -/

structure Rule where
  risk_label : String
  severity : String
  recommendation : String
deriving DecidableEq

structure Recommendation where
  risk_label : String
  severity : String
  recommendation : String
  phenotype : Option String := none
  gene : Option String := none
  detected_variant : Option String := none
  confidence_score : Option ℚ := none
deriving DecidableEq

/-- The inner lookup tables (`GENE_VARIANT_MAP[gene]`): variant identifier
to phenotype name. -/
abbrev GeneMap := String → Option String

/-- The inner rule tables (`PHENOTYPE_RULES[drug]`): phenotype name to rule. -/
abbrev DrugRules := String → Option Rule

/-- JS truthiness of a possibly-absent string: `undefined` and `""` are
falsy. -/
def strTruthy : Option String → Option String
  | some s => if s = "" then none else some s
  | none => none

/-- The RS branch of the scan loop (source lines 154-159):
`if (v.rsId && geneMap[v.rsId])`. -/
def matchRs (geneMap : GeneMap) (v : ParsedVariant) : Option (String × String) :=
  if v.rsId = "" then none
  else match strTruthy (geneMap v.rsId) with
    | some p => some (p, v.rsId)
    | none => none

/-- One loop iteration (source lines 147-159): star allele first,
then the RS id. Result is `(phenotype, matchedVariantStr)`. -/
def matchVariant (geneMap : GeneMap) (v : ParsedVariant) : Option (String × String) :=
  match strTruthy v.starAllele with
  | some s =>
    match strTruthy (geneMap s) with
    | some p => some (p, s)
    | none => matchRs geneMap v
  | none => matchRs geneMap v

/-- The scan loop over the gene-filtered variants (source lines 143-160):
`if (!geneMap) continue;` happens inside every iteration, a hit `break`s. -/
def scanVariants (gmOpt : Option GeneMap) : List ParsedVariant → Option (String × String)
  | [] => none
  | v :: vs =>
    match gmOpt with
    | none => scanVariants gmOpt vs
    | some gm =>
      match matchVariant gm v with
      | some hit => some hit
      | none => scanVariants gmOpt vs

/-- Embedding of `RuleEngineService.createUnknown` (source lines 200-208). -/
def createUnknown (reason : String) (score : ℚ) : Recommendation :=
  { risk_label := "Unknown"
    severity := "low"
    recommendation := reason
    phenotype := some "Unknown"
    confidence_score := some score }

/-- Embedding of `RuleEngineService.evaluate` (source lines 118-198).  The three lookup
tables are parameters (they are loaded from external JSON data files), and
`rand` stands for the `Math.random()` draw on the success path. -/
def evaluate (dgm : String → Option String) (gvm : String → Option GeneMap)
    (phenotypeRules : String → Option DrugRules) (rand : ℚ)
    (drug : String) (variants : List ParsedVariant) : Recommendation :=
  match strTruthy (dgm (jsToUpper drug)) with
  | none => createUnknown "Drug not supported or mapped to a gene." (1/10)
  | some targetGene =>
    match scanVariants (gvm targetGene) (variants.filter (fun v => v.gene = targetGene)) with
    | none => createUnknown "No pharmacogenomic variants detected for this drug/gene pair." (2/10)
    | some (foundPhenotype, matchedVariantStr) =>
      match phenotypeRules (jsToUpper drug) with
      | none => createUnknown "No rules defined for this drug." (1/10)
      | some drugRules =>
        match drugRules foundPhenotype with
        | none =>
          { risk_label := "Unknown Phenotype Impact"
            severity := "low"
            recommendation := "Phenotype detected but no specific rule found."
            phenotype := some foundPhenotype
            gene := some targetGene
            detected_variant := some matchedVariantStr
            confidence_score := some (7/10) }
        | some rule =>
          { risk_label := rule.risk_label
            severity := rule.severity
            recommendation := rule.recommendation
            phenotype := some foundPhenotype
            gene := some targetGene
            detected_variant := some matchedVariantStr
            confidence_score := some (9/10 + rand * (1/20)) }

/-! ### SHA-256 (the `createHash` SHA-256 used by cache.service.ts)
A direct functional implementation over `Nat` bytes/words with explicit
`% 2^32` reductions, so concrete digests can be evaluated by the kernel. -/

def UINT32_MOD : Nat := 4294967296

def rotr (n x : Nat) : Nat := ((x >>> n) ||| (x <<< (32 - n))) % UINT32_MOD

def sha256K : List Nat :=
  [1116352408, 1899447441, 3049323471, 3921009573, 961987163,
   1508970993, 2453635748, 2870763221, 3624381080, 310598401,
   607225278, 1426881987, 1925078388, 2162078206, 2614888103,
   3248222580, 3835390401, 4022224774, 264347078, 604807628,
   770255983, 1249150122, 1555081692, 1996064986, 2554220882,
   2821834349, 2952996808, 3210313671, 3336571891, 3584528711,
   113926993, 338241895, 666307205, 773529912, 1294757372,
   1396182291, 1695183700, 1986661051, 2177026350, 2456956037,
   2730485921, 2820302411, 3259730800, 3345764771, 3516065817,
   3600352804, 4094571909, 275423344, 430227734, 506948616,
   659060556, 883997877, 958139571, 1322822218, 1537002063,
   1747873779, 1955562222, 2024104815, 2227730452, 2361852424,
   2428436474, 2756734187, 3204031479, 3329325298]

def sha256H0 : List Nat :=
  [1779033703, 3144134277, 1013904242, 2773480762,
   1359893119, 2600822924, 528734635, 1541459225]

/-- Standard UTF-8 encoding of one code point. -/
def utf8EncodeChar (c : Char) : List Nat :=
  let n := c.toNat
  if n < 0x80 then [n]
  else if n < 0x800 then
    [0xC0 ||| (n >>> 6), 0x80 ||| (n &&& 0x3F)]
  else if n < 0x10000 then
    [0xE0 ||| (n >>> 12), 0x80 ||| ((n >>> 6) &&& 0x3F), 0x80 ||| (n &&& 0x3F)]
  else
    [0xF0 ||| (n >>> 18), 0x80 ||| ((n >>> 12) &&& 0x3F),
     0x80 ||| ((n >>> 6) &&& 0x3F), 0x80 ||| (n &&& 0x3F)]

def utf8Bytes (s : String) : List Nat :=
  (s.toList.map utf8EncodeChar).flatten

/-- The `k` big-endian bytes of `n`. -/
def toBytesBE : Nat → Nat → List Nat
  | 0, _ => []
  | k + 1, n => toBytesBE k (n >>> 8) ++ [n &&& 0xFF]

/-- SHA-256 padding: `0x80`, zeros to 56 mod 64, 8-byte big-endian bit length. -/
def padMessage (msg : List Nat) : List Nat :=
  let len := msg.length
  let padZeros := (119 - len % 64) % 64
  msg ++ [0x80] ++ List.replicate padZeros 0 ++ toBytesBE 8 (len * 8)

/-- Big-endian 32-bit words from bytes. -/
def bytesToWords : List Nat → List Nat
  | b0 :: b1 :: b2 :: b3 :: rest =>
    ((((b0 <<< 8) ||| b1) <<< 8 ||| b2) <<< 8 ||| b3) :: bytesToWords rest
  | _ => []

def scheduleStep (w : Array Nat) (_i : Nat) : Array Nat :=
  let i := w.size
  let w15 := w.getD (i - 15) 0
  let w2 := w.getD (i - 2) 0
  let w16 := w.getD (i - 16) 0
  let w7 := w.getD (i - 7) 0
  let s0 := (rotr 7 w15) ^^^ (rotr 18 w15) ^^^ (w15 >>> 3)
  let s1 := (rotr 17 w2) ^^^ (rotr 19 w2) ^^^ (w2 >>> 10)
  w.push ((w16 + s0 + w7 + s1) % UINT32_MOD)

/-- Message schedule: 16 block words extended to 64. -/
def schedule (w0 : List Nat) : Array Nat :=
  (List.range 48).foldl scheduleStep w0.toArray

def compressRound (w : Array Nat) (st : List Nat) (i : Nat) : List Nat :=
  match st with
  | [a, b, c, d, e, f, g, h] =>
    let s1 := (rotr 6 e) ^^^ (rotr 11 e) ^^^ (rotr 25 e)
    let ch := (e &&& f) ^^^ ((0xFFFFFFFF ^^^ e) &&& g)
    let temp1 := (h + s1 + ch + sha256K.getD i 0 + w.getD i 0) % UINT32_MOD
    let s0 := (rotr 2 a) ^^^ (rotr 13 a) ^^^ (rotr 22 a)
    let maj := (a &&& b) ^^^ (a &&& c) ^^^ (b &&& c)
    let temp2 := (s0 + maj) % UINT32_MOD
    [(temp1 + temp2) % UINT32_MOD, a, b, c, (d + temp1) % UINT32_MOD, e, f, g]
  | _ => st

def compressBlock (h : List Nat) (block : List Nat) : List Nat :=
  let w := schedule (bytesToWords block)
  let st := (List.range 64).foldl (compressRound w) h
  List.zipWith (fun x y => (x + y) % UINT32_MOD) h st

def processBlocks : Nat → List Nat → List Nat → List Nat
  | 0, h, _ => h
  | fuel + 1, h, bytes => processBlocks fuel (compressBlock h (bytes.take 64)) (bytes.drop 64)

def sha256Bytes (msg : List Nat) : List Nat :=
  let padded := padMessage msg
  let hw := processBlocks (padded.length / 64) sha256H0 padded
  hw.foldr (fun wrd acc => toBytesBE 4 wrd ++ acc) []

def hexDigit (n : Nat) : Char :=
  if n < 10 then Char.ofNat (48 + n) else Char.ofNat (87 + n)

def byteToHex (b : Nat) : List Char := [hexDigit (b >>> 4), hexDigit (b &&& 0xF)]

/-- Lowercase hex SHA-256 digest of the UTF-8 bytes of a string, matching
`createHash(...).update(data).digest(...)` with SHA-256 and hex output. -/
def sha256Hex (s : String) : String :=
  String.mk ((sha256Bytes (utf8Bytes s)).foldr (fun b acc => byteToHex b ++ acc) [])

/-! ### CacheService (cache.service.ts) -/

/-- Executable lexicographic `≤` on character lists (by code point), the
comparison JS `Array.prototype.sort()` applies to strings. -/
def charListLe : List Char → List Char → Bool
  | [], _ => true
  | _ :: _, [] => false
  | a :: as, b :: bs =>
    if a.toNat < b.toNat then true
    else if b.toNat < a.toNat then false
    else charListLe as bs

def jsLe (a b : String) : Bool := charListLe a.toList b.toList

/-- The sort order of JS `Array.prototype.sort()` on strings, as a relation. -/
def JsLeRel (a b : String) : Prop := jsLe a b = true

instance : DecidableRel JsLeRel := fun a b => Bool.decEq (jsLe a b) true

/-- JS `Array.prototype.sort()` on strings: sort by lexicographic order. -/
def jsSortStrings (l : List String) : List String :=
  List.insertionSort JsLeRel l

/-- Embedding of `CacheService.generateSignature` (cache.service.ts lines 10-15):
filter out falsy (empty) ids, sort, join with `|`, SHA-256 hex. -/
def generateSignature (identifiers : List String) : String :=
  let sortedIds := jsSortStrings (identifiers.filter (fun id => id ≠ ""))
  let data := String.intercalate "|" sortedIds
  sha256Hex data

/-! ### AnalyzeController (controller source) -/

structure RiskAssessment where
  level : String
  confidence_score : ℚ
deriving DecidableEq

structure PgxProfile where
  gene : Option String
  phenotype : Option String
  detected_variant : Option String
  total_variants_found : Nat
  signature_hash : String
deriving DecidableEq

structure LlmExplanation where
  summary : String
deriving DecidableEq

structure ExplainabilityTree where
  drug : String
  gene : Option String
  variant : String
  phenotype : Option String
  risk : String
  recommendation : String
deriving DecidableEq

structure QualityMetrics where
  vcf_quality : String
  genotype_completeness : String
deriving DecidableEq

structure AnalyzeResponse where
  patient_id : String
  drug : String
  timestamp : String
  mode : String
  risk_assessment : RiskAssessment
  pharmacogenomic_profile : PgxProfile
  clinical_recommendation : String
  llm_generated_explanation : LlmExplanation
  explainability_tree : ExplainabilityTree
  genomic_signature_id : String
  quality_metrics : QualityMetrics
  cache_status : String
deriving DecidableEq

/-- The controller outcome: a 400 client error or a 200 JSON body. -/
inductive AnalyzeResult where
  | clientError (msg : String)
  | ok (resp : AnalyzeResponse)
deriving DecidableEq

/-- The process-wide cache `Map`: prepend on `set`, first hit on `get`,
so the most recent `set` for a key wins. -/
abbrev Cache := List (String × AnalyzeResponse)

def cacheGet (cache : Cache) (key : String) : Option AnalyzeResponse :=
  List.lookup key cache

def cacheSet (cache : Cache) (key : String) (value : AnalyzeResponse) : Cache :=
  (key, value) :: cache

def charListOccursIn (sub : List Char) : List Char → Bool
  | [] => charListStartsWith sub []
  | b :: bs => charListStartsWith sub (b :: bs) || charListOccursIn sub bs

/-- JS `s.includes(sub)`: `sub` occurs contiguously inside `s`. -/
def strIncludes (s sub : String) : Bool :=
  charListOccursIn sub.toList s.toList

def FAILURE_MARKER : String := "temporarily unavailable"

def fallbackExplanation : String := "Explanation temporarily unavailable."

/-- JS `(req.body.mode as ...) || "patient"`. -/
def jsMode (modeRaw : String) : String :=
  if modeRaw = "" then "patient" else modeRaw

/-- The non-empty rsIds of the parsed variants (controller step 3). -/
def rsIdsOf (variants : List ParsedVariant) : List String :=
  (variants.map (fun v => v.rsId)).filter (fun id => id ≠ "")

/-- The cache key `` `${signature}:${drug.toUpperCase()}:${mode}` ``. -/
def requestKey (vcfContent drug modeRaw : String) : String :=
  generateSignature (rsIdsOf (parseVcf vcfContent)) ++ ":" ++ jsToUpper drug ++ ":" ++ jsMode modeRaw

/-- The cache-hit validity test of the controller: the stored summary is truthy
and does not contain the failure marker. -/
def validCacheEntry (c : AnalyzeResponse) : Bool :=
  decide (c.llm_generated_explanation.summary ≠ "")
    && !(strIncludes c.llm_generated_explanation.summary FAILURE_MARKER)

/-- The cache-hit response: the cached payload with a re-randomized
confidence score, a fresh timestamp and `cache_status = "HIT"`. -/
def hitResponse (c : AnalyzeResponse) (ts : String) (rand : ℚ) : AnalyzeResponse :=
  { c with
    risk_assessment := { c.risk_assessment with confidence_score := 9/10 + rand * (1/20) }
    timestamp := ts
    cache_status := "HIT" }

/-- Controller steps 5-7: rule evaluation, LLM call (its outcome is the
oracle `llmOutcome`; `none` models a thrown error, in which case the
pre-set fallback string survives), and response assembly. -/
def buildMissResponse (dgm : String → Option String) (gvm : String → Option GeneMap)
    (phenotypeRules : String → Option DrugRules) (variants : List ParsedVariant)
    (signature drug mode : String) (llmOutcome : Option String)
    (uuid ts : String) (rand : ℚ) : AnalyzeResponse :=
  let result := evaluate dgm gvm phenotypeRules rand drug variants
  let llmExplanation := match llmOutcome with
    | some s => s
    | none => fallbackExplanation
  { patient_id := uuid
    drug := jsToUpper drug
    timestamp := ts
    mode := mode
    risk_assessment := {
      level := result.risk_label
      confidence_score := match result.confidence_score with
        | some c => if c = 0 then 1/2 else c
        | none => 1/2 }
    pharmacogenomic_profile := {
      gene := result.gene
      phenotype := result.phenotype
      detected_variant := result.detected_variant
      total_variants_found := variants.length
      signature_hash := signature }
    clinical_recommendation := result.recommendation
    llm_generated_explanation := { summary := llmExplanation }
    explainability_tree := {
      drug := jsToUpper drug
      gene := result.gene
      variant := match result.detected_variant with
        | some s => if s = "" then "None" else s
        | none => "None"
      phenotype := result.phenotype
      risk := result.risk_label
      recommendation := result.recommendation }
    genomic_signature_id := signature
    quality_metrics := {
      vcf_quality := "PASS"
      genotype_completeness := if variants.length > 0 then "High" else "Low" }
    cache_status := "MISS" }

/-- The response the miss path assembles from the raw controller inputs. -/
def missResponse (dgm : String → Option String) (gvm : String → Option GeneMap)
    (phenotypeRules : String → Option DrugRules) (vcfContent drug modeRaw : String)
    (llmOutcome : Option String) (uuid ts : String) (rand : ℚ) : AnalyzeResponse :=
  buildMissResponse dgm gvm phenotypeRules (parseVcf vcfContent)
    (generateSignature (rsIdsOf (parseVcf vcfContent))) drug (jsMode modeRaw)
    llmOutcome uuid ts rand

/-- The miss path: build the response, store it only when its explanation
does not carry the failure marker (controller step 8). -/
def analyzeMiss (dgm : String → Option String) (gvm : String → Option GeneMap)
    (phenotypeRules : String → Option DrugRules) (cache : Cache)
    (vcfContent drug modeRaw : String) (llmOutcome : Option String)
    (uuid ts : String) (rand : ℚ) : AnalyzeResult × Cache :=
  if strIncludes (missResponse dgm gvm phenotypeRules vcfContent drug modeRaw
      llmOutcome uuid ts rand).llm_generated_explanation.summary FAILURE_MARKER then
    (.ok (missResponse dgm gvm phenotypeRules vcfContent drug modeRaw llmOutcome uuid ts rand),
      cache)
  else
    (.ok (missResponse dgm gvm phenotypeRules vcfContent drug modeRaw llmOutcome uuid ts rand),
      cacheSet cache (requestKey vcfContent drug modeRaw)
        (missResponse dgm gvm phenotypeRules vcfContent drug modeRaw llmOutcome uuid ts rand))

/-- Embedding of `AnalyzeController.analyze`.  `file` is `none` when no file was
uploaded; `uuid`, `ts` and `rand` are the `randomUUID()`, timestamp and
`Math.random()` oracles of the request. -/
def analyze (dgm : String → Option String) (gvm : String → Option GeneMap)
    (phenotypeRules : String → Option DrugRules) (cache : Cache)
    (file : Option String) (drug modeRaw : String) (llmOutcome : Option String)
    (uuid ts : String) (rand : ℚ) : AnalyzeResult × Cache :=
  match file with
  | none => (.clientError "No VCF file provided.", cache)
  | some vcfContent =>
    if drug = "" then (.clientError "No Drug specified.", cache)
    else
      match cacheGet cache (requestKey vcfContent drug modeRaw) with
      | some cachedResult =>
        if validCacheEntry cachedResult then
          (.ok (hitResponse cachedResult ts rand), cache)
        else
          analyzeMiss dgm gvm phenotypeRules cache vcfContent drug modeRaw llmOutcome uuid ts rand
      | none =>
        analyzeMiss dgm gvm phenotypeRules cache vcfContent drug modeRaw llmOutcome uuid ts rand

/-! ## Shared lemmas about the branches of the rule engine -/

set_option maxRecDepth 1000000

theorem evaluate_unmapped {dgm : String → Option String} {gvm : String → Option GeneMap}
    {phenotypeRules : String → Option DrugRules} {rand : ℚ} {drug : String}
    {variants : List ParsedVariant}
    (h1 : strTruthy (dgm (jsToUpper drug)) = none) :
    evaluate dgm gvm phenotypeRules rand drug variants =
      createUnknown "Drug not supported or mapped to a gene." (1/10) := by
  unfold evaluate
  rw [h1]

theorem evaluate_noVariant {dgm : String → Option String} {gvm : String → Option GeneMap}
    {phenotypeRules : String → Option DrugRules} {rand : ℚ} {drug g : String}
    {variants : List ParsedVariant}
    (h1 : dgm (jsToUpper drug) = some g) (hg : g ≠ "")
    (hscan : scanVariants (gvm g) (variants.filter (fun v => v.gene = g)) = none) :
    evaluate dgm gvm phenotypeRules rand drug variants =
      createUnknown "No pharmacogenomic variants detected for this drug/gene pair." (2/10) := by
  unfold evaluate
  rw [h1]
  simp only [strTruthy, if_neg hg]
  rw [hscan]

theorem evaluate_noRules {dgm : String → Option String} {gvm : String → Option GeneMap}
    {phenotypeRules : String → Option DrugRules} {rand : ℚ} {drug g ph mv : String}
    {variants : List ParsedVariant}
    (h1 : dgm (jsToUpper drug) = some g) (hg : g ≠ "")
    (hscan : scanVariants (gvm g) (variants.filter (fun v => v.gene = g)) = some (ph, mv))
    (h2 : phenotypeRules (jsToUpper drug) = none) :
    evaluate dgm gvm phenotypeRules rand drug variants =
      createUnknown "No rules defined for this drug." (1/10) := by
  unfold evaluate
  rw [h1]
  simp only [strTruthy, if_neg hg]
  rw [hscan]
  simp only []
  rw [h2]

theorem evaluate_noPhenotypeRule {dgm : String → Option String} {gvm : String → Option GeneMap}
    {phenotypeRules : String → Option DrugRules} {rand : ℚ} {drug g ph mv : String}
    {dr : DrugRules} {variants : List ParsedVariant}
    (h1 : dgm (jsToUpper drug) = some g) (hg : g ≠ "")
    (hscan : scanVariants (gvm g) (variants.filter (fun v => v.gene = g)) = some (ph, mv))
    (h2 : phenotypeRules (jsToUpper drug) = some dr) (h3 : dr ph = none) :
    evaluate dgm gvm phenotypeRules rand drug variants =
      { risk_label := "Unknown Phenotype Impact", severity := "low",
        recommendation := "Phenotype detected but no specific rule found.",
        phenotype := some ph, gene := some g, detected_variant := some mv,
        confidence_score := some (7/10) } := by
  unfold evaluate
  rw [h1]
  simp only [strTruthy, if_neg hg]
  rw [hscan]
  simp only []
  rw [h2]
  simp only []
  rw [h3]

theorem evaluate_ruleHit {dgm : String → Option String} {gvm : String → Option GeneMap}
    {phenotypeRules : String → Option DrugRules} {rand : ℚ} {drug g ph mv : String}
    {dr : DrugRules} {rule : Rule} {variants : List ParsedVariant}
    (h1 : dgm (jsToUpper drug) = some g) (hg : g ≠ "")
    (hscan : scanVariants (gvm g) (variants.filter (fun v => v.gene = g)) = some (ph, mv))
    (h2 : phenotypeRules (jsToUpper drug) = some dr) (h3 : dr ph = some rule) :
    evaluate dgm gvm phenotypeRules rand drug variants =
      { risk_label := rule.risk_label, severity := rule.severity,
        recommendation := rule.recommendation, phenotype := some ph, gene := some g,
        detected_variant := some mv, confidence_score := some (9/10 + rand * (1/20)) } := by
  unfold evaluate
  rw [h1]
  simp only [strTruthy, if_neg hg]
  rw [hscan]
  simp only []
  rw [h2]
  simp only []
  rw [h3]

theorem matchVariant_star {gm : GeneMap} {v : ParsedVariant} {s p : String}
    (hs : v.starAllele = some s) (hs0 : s ≠ "") (hp : gm s = some p) (hp0 : p ≠ "") :
    matchVariant gm v = some (p, s) := by
  unfold matchVariant
  rw [hs]
  simp only [strTruthy, if_neg hs0]
  rw [hp]
  simp only [if_neg hp0]

theorem scanVariants_cons_hit {gm : GeneMap} {v : ParsedVariant} {vs : List ParsedVariant}
    {hit : String × String} (h : matchVariant gm v = some hit) :
    scanVariants (some gm) (v :: vs) = some hit := by
  unfold scanVariants
  simp only []
  rw [h]

/-! ## Claim C1: the CLOPIDOGREL / CYP2C19 *2 scenario -/

def c1Line : String := "chr10\t96541616\trs4244285\tG\tA\t.\t.\tGENE=CYP2C19;STAR=*2"

def c1Variant : ParsedVariant :=
  { gene := "CYP2C19", rsId := "rs4244285", starAllele := some "*2",
    chromosome := "chr10", position := "96541616", ref := "G", alt := "A",
    info := [("STAR", "*2"), ("GENE", "CYP2C19")] }

/-- C1: parsing the single data line
`chr10\t96541616\trs4244285\tG\tA\t.\t.\tGENE=CYP2C19;STAR=*2` and evaluating
for drug CLOPIDOGREL — under the hypotheses that the drug→gene table maps
CLOPIDOGREL to CYP2C19, the gene-variant map of CYP2C19 sends `*2` to
"Poor Metabolizer", and the CLOPIDOGREL phenotype rules give risk "HIGH"
for "Poor Metabolizer" — yields detected_variant `*2`, phenotype
"Poor Metabolizer", risk_label "HIGH", and a confidence score in
`[0.90, 0.95)` (the `Math.random()` draw `rand` satisfies `0 ≤ rand < 1`). -/
theorem c1_scenario (dgm : String → Option String) (gvm : String → Option GeneMap)
    (phenotypeRules : String → Option DrugRules) (gm : GeneMap) (dr : DrugRules)
    (rule : Rule) (rand : ℚ)
    (hdg : dgm "CLOPIDOGREL" = some "CYP2C19")
    (hgv : gvm "CYP2C19" = some gm)
    (hstar : gm "*2" = some "Poor Metabolizer")
    (hpr : phenotypeRules "CLOPIDOGREL" = some dr)
    (hrule : dr "Poor Metabolizer" = some rule)
    (hrisk : rule.risk_label = "HIGH")
    (hr0 : 0 ≤ rand) (hr1 : rand < 1) :
    ∃ c : ℚ,
      evaluate dgm gvm phenotypeRules rand "CLOPIDOGREL" (parseVcf c1Line) =
        { risk_label := "HIGH", severity := rule.severity, recommendation := rule.recommendation,
          phenotype := some "Poor Metabolizer", gene := some "CYP2C19",
          detected_variant := some "*2", confidence_score := some c }
      ∧ 9/10 ≤ c ∧ c < 95/100 := by
  have hparse : parseVcf c1Line = [c1Variant] := by decide
  have hupper : jsToUpper "CLOPIDOGREL" = "CLOPIDOGREL" := by decide
  have hfilt : [c1Variant].filter (fun v => v.gene = "CYP2C19") = [c1Variant] := by decide
  have hscan : scanVariants (gvm "CYP2C19")
      ([c1Variant].filter (fun v => v.gene = "CYP2C19")) = some ("Poor Metabolizer", "*2") := by
    rw [hfilt, hgv]
    exact scanVariants_cons_hit
      (matchVariant_star (by decide) (by decide) hstar (by decide))
  refine ⟨9/10 + rand * (1/20), ?_, by linarith, by linarith⟩
  rw [hparse, ← hrisk]
  exact evaluate_ruleHit (hupper ▸ hdg) (by decide) hscan (hupper ▸ hpr) hrule

def c1Dgm : String → Option String :=
  fun d => if d = "CLOPIDOGREL" then some "CYP2C19" else none

def c1Gm : GeneMap :=
  fun v => if v = "*2" then some "Poor Metabolizer" else none

def c1Gvm : String → Option GeneMap :=
  fun g => if g = "CYP2C19" then some c1Gm else none

def c1Rule : Rule :=
  { risk_label := "HIGH", severity := "critical",
    recommendation := "Avoid clopidogrel; consider alternative antiplatelet therapy." }

def c1Dr : DrugRules :=
  fun p => if p = "Poor Metabolizer" then some c1Rule else none

def c1Rules : String → Option DrugRules :=
  fun d => if d = "CLOPIDOGREL" then some c1Dr else none

/-- C1 witness: the scenario at concrete lookup tables and `rand = 0`. -/
theorem c1_scenario_witness :
    ∃ c : ℚ,
      evaluate c1Dgm c1Gvm c1Rules 0 "CLOPIDOGREL" (parseVcf c1Line) =
        { risk_label := "HIGH", severity := c1Rule.severity,
          recommendation := c1Rule.recommendation,
          phenotype := some "Poor Metabolizer", gene := some "CYP2C19",
          detected_variant := some "*2", confidence_score := some c }
      ∧ 9/10 ≤ c ∧ c < 95/100 :=
  c1_scenario c1Dgm c1Gvm c1Rules c1Gm c1Dr c1Rule 0
    rfl rfl rfl rfl rfl rfl (le_refl 0) (by norm_num)

/-! ## Claim C2: ordered scan, star allele before rsId, first match wins -/

/-- C2: the scan over the gene-filtered variants visits them in their
original order and stops at the first variant yielding a hit, so later
variants are never consulted (the result for `v :: vs` is fixed by the hit
of `v`, for every tail `vs`); within one variant the star allele is tested
before the rsId, so a variant whose starAllele and rsId are both keys of
the gene table matches on the star allele; and at the `evaluate` level
the star allele of such a leading variant is what is recorded as
`detected_variant` (whenever a phenotype-rule table exists for the drug,
since the no-rules branch returns an Unknown record without it). -/
theorem c2_star_priority :
    (∀ (gm : GeneMap) (v : ParsedVariant) (vs : List ParsedVariant) (hit : String × String),
      matchVariant gm v = some hit → scanVariants (some gm) (v :: vs) = some hit)
    ∧ (∀ (gm : GeneMap) (v : ParsedVariant) (s p q : String),
      v.starAllele = some s → s ≠ "" → gm s = some p → p ≠ "" →
      v.rsId ≠ "" → gm v.rsId = some q → q ≠ "" →
      matchVariant gm v = some (p, s))
    ∧ (∀ (dgm : String → Option String) (gvm : String → Option GeneMap)
        (phenotypeRules : String → Option DrugRules) (rand : ℚ) (drug g : String)
        (gm : GeneMap) (dr : DrugRules) (variants : List ParsedVariant)
        (v : ParsedVariant) (vs : List ParsedVariant) (s p q : String),
      dgm (jsToUpper drug) = some g → g ≠ "" →
      variants.filter (fun x => x.gene = g) = v :: vs →
      gvm g = some gm →
      phenotypeRules (jsToUpper drug) = some dr →
      v.starAllele = some s → s ≠ "" → gm s = some p → p ≠ "" →
      v.rsId ≠ "" → gm v.rsId = some q → q ≠ "" →
      (evaluate dgm gvm phenotypeRules rand drug variants).detected_variant = some s) := by
  refine ⟨?_, ?_, ?_⟩
  · intro gm v vs hit h
    exact scanVariants_cons_hit h
  · intro gm v s p q hs hs0 hp hp0 _ _ _
    exact matchVariant_star hs hs0 hp hp0
  · intro dgm gvm phenotypeRules rand drug g gm dr variants v vs s p q
      h1 hg hfilt hgv h2 hs hs0 hp hp0 _ _ _
    have hscan : scanVariants (gvm g) (variants.filter (fun x => x.gene = g)) = some (p, s) := by
      rw [hfilt, hgv]
      exact scanVariants_cons_hit (matchVariant_star hs hs0 hp hp0)
    cases h3 : dr p with
    | none => rw [evaluate_noPhenotypeRule h1 hg hscan h2 h3]
    | some rule => rw [evaluate_ruleHit h1 hg hscan h2 h3]

def c2Gm : GeneMap :=
  fun x => if x = "*2" then some "Poor Metabolizer"
    else if x = "rs4244285" then some "Intermediate Metabolizer" else none

def c2Gvm : String → Option GeneMap :=
  fun g => if g = "CYP2C19" then some c2Gm else none

/-- C2 witness: a variant whose star allele `*2` and rsId `rs4244285` are
both keys of the gene table is recorded through its star allele. -/
theorem c2_star_priority_witness :
    (evaluate c1Dgm c2Gvm c1Rules 0 "CLOPIDOGREL" [c1Variant]).detected_variant = some "*2" :=
  c2_star_priority.2.2 c1Dgm c2Gvm c1Rules 0 "CLOPIDOGREL" "CYP2C19" c2Gm c1Dr
    [c1Variant] c1Variant [] "*2" "Poor Metabolizer" "Intermediate Metabolizer"
    (by decide) (by decide) (by decide) rfl
    (by rw [show jsToUpper "CLOPIDOGREL" = "CLOPIDOGREL" from by decide]; rfl)
    (by decide) (by decide) (by decide) (by decide) (by decide) (by decide) (by decide)

/-! ## Claim C3: graded Unknown results, no exceptions -/

/-- C3: the rule engine is a total function (the embedding itself), and
absence of data surfaces as a populated Unknown record: an unmapped drug
(its uppercased name absent from the drug→gene table) yields
risk_label "Unknown" with confidence 0.1, and a mapped drug whose gene
scan finds no hit (no gene-matching variant, or none hitting the
variant→phenotype table) yields risk_label "Unknown" with confidence 0.2. -/
theorem c3_unknown_gradings :
    (∀ (dgm : String → Option String) (gvm : String → Option GeneMap)
        (phenotypeRules : String → Option DrugRules) (rand : ℚ) (drug : String)
        (variants : List ParsedVariant),
      dgm (jsToUpper drug) = none →
      (evaluate dgm gvm phenotypeRules rand drug variants).risk_label = "Unknown"
        ∧ (evaluate dgm gvm phenotypeRules rand drug variants).confidence_score = some (1/10))
    ∧ (∀ (dgm : String → Option String) (gvm : String → Option GeneMap)
        (phenotypeRules : String → Option DrugRules) (rand : ℚ) (drug g : String)
        (variants : List ParsedVariant),
      dgm (jsToUpper drug) = some g → g ≠ "" →
      scanVariants (gvm g) (variants.filter (fun v => v.gene = g)) = none →
      (evaluate dgm gvm phenotypeRules rand drug variants).risk_label = "Unknown"
        ∧ (evaluate dgm gvm phenotypeRules rand drug variants).confidence_score = some (2/10)) := by
  constructor
  · intro dgm gvm phenotypeRules rand drug variants h
    have h1 : strTruthy (dgm (jsToUpper drug)) = none := by rw [h]; rfl
    rw [evaluate_unmapped h1]
    exact ⟨rfl, rfl⟩
  · intro dgm gvm phenotypeRules rand drug g variants h1 hg hscan
    rw [evaluate_noVariant h1 hg hscan]
    exact ⟨rfl, rfl⟩

/-- C3 witness: an unmapped drug at concrete (empty) tables. -/
theorem c3_unknown_gradings_witness :
    (evaluate (fun _ => none) (fun _ => none) (fun _ => none) 0 "ASPIRIN" []).risk_label = "Unknown"
      ∧ (evaluate (fun _ => none) (fun _ => none) (fun _ => none) 0 "ASPIRIN" []).confidence_score
        = some (1/10) :=
  c3_unknown_gradings.1 (fun _ => none) (fun _ => none) (fun _ => none) 0 "ASPIRIN" [] rfl

/-! ## Claim C4: parser totality and the exact retention condition -/

/-- The retention condition of the spec: a non-empty, non-`#` line with at
least 8 tab-separated columns, non-empty CHROM/POS/REF/ALT/INFO, and an
INFO map whose GENE value is one of the six target genes. -/
def lineKeeps (line : String) : Prop :=
  line ≠ "" ∧ jsStartsWith line "#" = false ∧
  ∃ chrom pos id ref alt qual filt infoStr rest,
    jsSplit line '\t' = chrom :: pos :: id :: ref :: alt :: qual :: filt :: infoStr :: rest
    ∧ chrom ≠ "" ∧ pos ≠ "" ∧ ref ≠ "" ∧ alt ≠ "" ∧ infoStr ≠ ""
    ∧ ∃ gene, recordGet (parseInfo infoStr) "GENE" = some gene ∧ gene ∈ TARGET_GENES

theorem parseLine_isSome_iff (line : String) : (parseLine line).isSome ↔ lineKeeps line := by
  unfold parseLine lineKeeps
  constructor
  · intro h
    split_ifs at h with h0 h1
    · simp at h
    · simp at h
    · refine ⟨h0, by simpa using h1, ?_⟩
      split at h
      next x chrom pos id ref alt qual filt infoStr tail heq =>
        refine ⟨chrom, pos, id, ref, alt, qual, filt, infoStr, tail, heq, ?_⟩
        by_cases hemp : chrom = "" ∨ pos = "" ∨ ref = "" ∨ alt = "" ∨ infoStr = ""
        · rw [if_pos hemp] at h
          simp at h
        · rw [if_neg hemp] at h
          push_neg at hemp
          obtain ⟨hc, hp2, hr, ha, hi⟩ := hemp
          refine ⟨hc, hp2, hr, ha, hi, ?_⟩
          split at h
          next hgn => simp at h
          next gene hg =>
            by_cases hge : gene = ""
            · rw [if_pos hge] at h
              simp at h
            · rw [if_neg hge] at h
              by_cases hmem : TARGET_GENES.contains gene = true
              · exact ⟨gene, hg, by simpa using hmem⟩
              · rw [if_neg hmem] at h
                simp at h
      next x hno => simp at h
  · rintro ⟨h0, h1, chrom, pos, id, ref, alt, qual, filt, infoStr, rest, hsplit,
      hc, hp2, hr, ha, hi, gene, hg, hmem⟩
    rw [if_neg h0, if_neg (by simp [h1]), hsplit]
    simp only []
    rw [if_neg (by simp [hc, hp2, hr, ha, hi])]
    simp only [hg]
    have hge : gene ≠ "" := by rintro rfl; revert hmem; decide
    rw [if_neg hge, if_pos (by simpa using hmem)]
    simp

theorem parseVcf_foldl (lines : List String) (acc : List ParsedVariant) :
    lines.foldl (fun variants line => match parseLine line with
      | some v => variants ++ [v]
      | none => variants) acc = acc ++ lines.filterMap parseLine := by
  induction lines generalizing acc with
  | nil => simp
  | cons l ls ih =>
    simp only [List.foldl_cons]
    cases h : parseLine l with
    | none => simp [h, ih]
    | some v => simp [h, ih]

theorem parseVcf_eq_filterMap (vcfContent : String) :
    parseVcf vcfContent = (jsSplit vcfContent '\n').filterMap parseLine := by
  unfold parseVcf
  rw [parseVcf_foldl]
  simp

/-- C4: parsing is total (the embedding is a total function of the raw
text); a line contributes exactly one record iff it is non-empty, not a
`#` line, has at least 8 tab-separated columns with non-empty
CHROM/POS/REF/ALT/INFO, and the GENE value of its INFO map is one of the six
target genes; and the retained records are the per-line results in source
line order (`parseVcf` is the order-preserving `filterMap` of `parseLine`
over the split lines). -/
theorem c4_parse_retention :
    (∀ line : String, (parseLine line).isSome ↔ lineKeeps line)
    ∧ ∀ vcfContent : String,
      parseVcf vcfContent = (jsSplit vcfContent '\n').filterMap parseLine :=
  ⟨parseLine_isSome_iff, parseVcf_eq_filterMap⟩

/-! ## Claim C5: INFO segment splitting

The claim says a segment `K=a=b` records `K ↦ "a=b"` (split on the first
`=` only).  The source destructures `part.split('=')` into its first two
pieces, so `K=a=b` records `K ↦ "a"`. -/

/-- C5 counterexample: for the segment `K=a=b` the INFO map records the
value `"a"`, not `"a=b"` as the claim states. -/
theorem c5_counterexample :
    recordGet (parseInfo "K=a=b") "K" = some "a"
      ∧ recordGet (parseInfo "K=a=b") "K" ≠ some "a=b" := by
  constructor
  · decide
  · decide

/-- C5 (amended): the INFO field is split on `;`; each segment is split on
`=` and only the first two pieces are kept — the key is the piece before
the first `=` and the recorded value is the piece between the first and
second `=` — while a segment containing no `=` is recorded as a boolean
flag with the literal string value `"true"`. -/
theorem c5_info_split (info : List (String × String)) (part k v : String) (rest : List String) :
    (jsSplit part '=' = k :: v :: rest → k ≠ "" → v ≠ "" →
      recordGet (infoStep info part) k = some v)
    ∧ (jsSplit part '=' = [k] → k ≠ "" →
      recordGet (infoStep info part) k = some "true") := by
  constructor
  · intro hsplit hk hv
    unfold infoStep
    rw [hsplit]
    simp only []
    rw [if_neg hk, if_neg hv]
    simp [recordGet, recordSet, List.lookup]
  · intro hsplit hk
    unfold infoStep
    rw [hsplit]
    simp only []
    rw [if_neg hk]
    simp [recordGet, recordSet, List.lookup]

/-- C5 witness: the amended split behaviour at the concrete segments
`K=a=b` (value case, keeping only the second piece) and `FLAG` (flag case). -/
theorem c5_info_split_witness :
    recordGet (infoStep [] "K=a=b") "K" = some "a"
      ∧ recordGet (infoStep [] "FLAG") "FLAG" = some "true" :=
  ⟨(c5_info_split [] "K=a=b" "K" "a" ["b"]).1 (by decide) (by decide) (by decide),
   (c5_info_split [] "FLAG" "FLAG" "x" []).2 (by decide) (by decide)⟩

/-! ## Claim C10: which optional fields no-match results carry

The claim says phenotype, gene and detected_variant are all absent when no
match was found.  `createUnknown` populates `phenotype` with the string
"Unknown" on every no-match path, so only gene and detected_variant are
absent. -/

/-- C10 counterexample: evaluating an unmapped drug (no match found)
returns a Recommendation that DOES carry a phenotype, namely "Unknown". -/
theorem c10_counterexample :
    (evaluate (fun _ => none) (fun _ => none) (fun _ => none) 0 "ASPIRIN" []).phenotype
        = some "Unknown"
      ∧ (evaluate (fun _ => none) (fun _ => none) (fun _ => none) 0 "ASPIRIN" []).phenotype
        ≠ none := by
  rw [evaluate_unmapped (show strTruthy none = none from rfl)]
  exact ⟨rfl, by simp [createUnknown]⟩

/-- C10 (amended): in every no-match outcome of the rule engine — unmapped
drug, no variant hitting the gene table, or no phenotype-rule table for
the drug — the returned Recommendation has `gene = none` and
`detected_variant = none`, while `phenotype` is populated with the string
"Unknown". -/
theorem c10_no_match_fields :
    (∀ (dgm : String → Option String) (gvm : String → Option GeneMap)
        (phenotypeRules : String → Option DrugRules) (rand : ℚ) (drug : String)
        (variants : List ParsedVariant),
      dgm (jsToUpper drug) = none →
      (evaluate dgm gvm phenotypeRules rand drug variants).gene = none
        ∧ (evaluate dgm gvm phenotypeRules rand drug variants).detected_variant = none
        ∧ (evaluate dgm gvm phenotypeRules rand drug variants).phenotype = some "Unknown")
    ∧ (∀ (dgm : String → Option String) (gvm : String → Option GeneMap)
        (phenotypeRules : String → Option DrugRules) (rand : ℚ) (drug g : String)
        (variants : List ParsedVariant),
      dgm (jsToUpper drug) = some g → g ≠ "" →
      scanVariants (gvm g) (variants.filter (fun v => v.gene = g)) = none →
      (evaluate dgm gvm phenotypeRules rand drug variants).gene = none
        ∧ (evaluate dgm gvm phenotypeRules rand drug variants).detected_variant = none
        ∧ (evaluate dgm gvm phenotypeRules rand drug variants).phenotype = some "Unknown")
    ∧ (∀ (dgm : String → Option String) (gvm : String → Option GeneMap)
        (phenotypeRules : String → Option DrugRules) (rand : ℚ) (drug g ph mv : String)
        (variants : List ParsedVariant),
      dgm (jsToUpper drug) = some g → g ≠ "" →
      scanVariants (gvm g) (variants.filter (fun v => v.gene = g)) = some (ph, mv) →
      phenotypeRules (jsToUpper drug) = none →
      (evaluate dgm gvm phenotypeRules rand drug variants).gene = none
        ∧ (evaluate dgm gvm phenotypeRules rand drug variants).detected_variant = none
        ∧ (evaluate dgm gvm phenotypeRules rand drug variants).phenotype = some "Unknown") := by
  refine ⟨?_, ?_, ?_⟩
  · intro dgm gvm phenotypeRules rand drug variants h
    rw [evaluate_unmapped (by rw [h]; rfl)]
    exact ⟨rfl, rfl, rfl⟩
  · intro dgm gvm phenotypeRules rand drug g variants h1 hg hscan
    rw [evaluate_noVariant h1 hg hscan]
    exact ⟨rfl, rfl, rfl⟩
  · intro dgm gvm phenotypeRules rand drug g ph mv variants h1 hg hscan h2
    rw [evaluate_noRules h1 hg hscan h2]
    exact ⟨rfl, rfl, rfl⟩

/-- C10 witness: the unmapped-drug outcome at concrete (empty) tables. -/
theorem c10_no_match_fields_witness :
    (evaluate (fun _ => none) (fun _ => none) (fun _ => none) 0 "WARFARIN" []).gene = none
      ∧ (evaluate (fun _ => none) (fun _ => none) (fun _ => none) 0 "WARFARIN" []).detected_variant
        = none
      ∧ (evaluate (fun _ => none) (fun _ => none) (fun _ => none) 0 "WARFARIN" []).phenotype
        = some "Unknown" :=
  c10_no_match_fields.1 (fun _ => none) (fun _ => none) (fun _ => none) 0 "WARFARIN" [] rfl

/-! ## Claim C6: signature invariances

The claim asserts invariance under duplicate removal.  The source filters
only falsy ids and sorts — duplicates of a non-empty id survive into the
joined string, so the digests differ. -/


theorem char_eq_of_toNat_eq {a b : Char} (h : a.toNat = b.toNat) : a = b := by
  have h2 := congrArg Char.ofNat h
  rwa [Char.ofNat_toNat, Char.ofNat_toNat] at h2

theorem charListLe_cons_iff {a b : Char} {as bs : List Char} :
    charListLe (a :: as) (b :: bs) = true ↔
      a.toNat < b.toNat ∨ (a.toNat = b.toNat ∧ charListLe as bs = true) := by
  show (if a.toNat < b.toNat then true
    else if b.toNat < a.toNat then false else charListLe as bs) = true ↔ _
  split_ifs with h1 h2
  · simp [h1]
  · have hne : a.toNat ≠ b.toNat := by omega
    simp [h1, hne]
  · have heq : a.toNat = b.toNat := by omega
    constructor
    · intro h
      exact Or.inr ⟨heq, h⟩
    · rintro (h | ⟨_, h⟩)
      · omega
      · exact h

theorem charListLe_total : ∀ as bs : List Char, charListLe as bs = true ∨ charListLe bs as = true := by
  intro as
  induction as with
  | nil => intro bs; left; rfl
  | cons a as ih =>
    intro bs
    cases bs with
    | nil => right; rfl
    | cons b bs =>
      rcases Nat.lt_trichotomy a.toNat b.toNat with h | h | h
      · left; rw [charListLe_cons_iff]; exact Or.inl h
      · rcases ih bs with h2 | h2
        · left; rw [charListLe_cons_iff]; exact Or.inr ⟨h, h2⟩
        · right; rw [charListLe_cons_iff]; exact Or.inr ⟨h.symm, h2⟩
      · right; rw [charListLe_cons_iff]; exact Or.inl h

theorem charListLe_trans : ∀ as bs cs : List Char,
    charListLe as bs = true → charListLe bs cs = true → charListLe as cs = true := by
  intro as
  induction as with
  | nil => intro bs cs _ _; rfl
  | cons a as ih =>
    intro bs cs h1 h2
    cases bs with
    | nil => cases h1
    | cons b bs =>
      cases cs with
      | nil => cases h2
      | cons c cs =>
        rw [charListLe_cons_iff] at h1 h2 ⊢
        rcases h1 with h1 | ⟨h1e, h1r⟩ <;> rcases h2 with h2 | ⟨h2e, h2r⟩
        · exact Or.inl (h1.trans h2)
        · exact Or.inl (h2e ▸ h1)
        · exact Or.inl (h1e ▸ h2)
        · exact Or.inr ⟨h1e.trans h2e, ih bs cs h1r h2r⟩

theorem charListLe_antisymm : ∀ as bs : List Char,
    charListLe as bs = true → charListLe bs as = true → as = bs := by
  intro as
  induction as with
  | nil =>
    intro bs _ h2
    cases bs with
    | nil => rfl
    | cons b bs => cases h2
  | cons a as ih =>
    intro bs h1 h2
    cases bs with
    | nil => cases h1
    | cons b bs =>
      rw [charListLe_cons_iff] at h1 h2
      rcases h1 with h1 | ⟨h1e, h1r⟩ <;> rcases h2 with h2 | ⟨h2e, h2r⟩
      · omega
      · omega
      · omega
      · rw [char_eq_of_toNat_eq h1e, ih bs h1r h2r]

instance : IsTotal String JsLeRel :=
  ⟨fun a b => charListLe_total a.toList b.toList⟩

instance : IsTrans String JsLeRel :=
  ⟨fun a b c => charListLe_trans a.toList b.toList c.toList⟩

instance : IsAntisymm String JsLeRel :=
  ⟨fun a b h1 h2 => String.toList_inj.mp (charListLe_antisymm a.toList b.toList h1 h2)⟩

theorem jsSortStrings_eq_of_perm {l1 l2 : List String} (h : l1.Perm l2) :
    jsSortStrings l1 = jsSortStrings l2 :=
  List.eq_of_perm_of_sorted
    ((List.perm_insertionSort JsLeRel l1).trans (h.trans (List.perm_insertionSort JsLeRel l2).symm))
    (List.sorted_insertionSort JsLeRel l1) (List.sorted_insertionSort JsLeRel l2)

/-- C6 counterexample: `["rs1","rs1"]` and `["rs1"]` contain the same set
of non-empty identifiers (equal dedups), yet their signatures differ —
the duplicate survives the filter and changes the hashed string. -/
theorem c6_counterexample :
    (["rs1", "rs1"] : List String).dedup = ["rs1"].dedup
      ∧ generateSignature ["rs1", "rs1"] ≠ generateSignature ["rs1"] := by
  constructor
  · decide
  · decide

/-- C6 (amended): the signature is invariant under reordering and under
adding/removing empty identifiers — any two lists whose non-empty
identifiers form the same multiset hash identically — and
`signature([]) = signature([""])`, both the SHA-256 of the empty string;
but it is NOT invariant under removal of duplicate non-empty identifiers
(see the counterexample). -/
theorem c6_signature (l1 l2 : List String) :
    ((l1.filter (fun id => id ≠ "")).Perm (l2.filter (fun id => id ≠ "")) →
      generateSignature l1 = generateSignature l2)
    ∧ generateSignature ["rs1", "rs2"] = generateSignature ["rs2", "rs1"]
    ∧ generateSignature [] = generateSignature [""]
    ∧ generateSignature [""] = sha256Hex "" := by
  refine ⟨?_, ?_, rfl, rfl⟩
  · intro h
    unfold generateSignature
    rw [jsSortStrings_eq_of_perm h]
  · unfold generateSignature
    rw [@jsSortStrings_eq_of_perm (["rs1", "rs2"].filter (fun id => id ≠ ""))
      (["rs2", "rs1"].filter (fun id => id ≠ "")) (by decide)]

/-- C6 witness: two reorderings (with empties) of the same multiset of
non-empty ids produce the same digest. -/
theorem c6_signature_witness :
    generateSignature ["rs2", "", "rs1"] = generateSignature ["rs1", "rs2", ""] :=
  (c6_signature ["rs2", "", "rs1"] ["rs1", "rs2", ""]).1 (by decide)


/-! ## Claims C7, C8, C9: controller cache behaviour -/


theorem cacheGet_cacheSet_self (cache : Cache) (k : String) (v : AnalyzeResponse) :
    cacheGet (cacheSet cache k v) k = some v := by
  simp [cacheGet, cacheSet, List.lookup]

theorem cacheGet_cacheSet_ne (cache : Cache) (k key : String) (v : AnalyzeResponse)
    (h : key ≠ k) : cacheGet (cacheSet cache k v) key = cacheGet cache key := by
  have hb : (key == k) = false := beq_eq_false_iff_ne.mpr h
  simp [cacheGet, cacheSet, List.lookup, hb]

theorem missResponse_summary (dgm : String → Option String) (gvm : String → Option GeneMap)
    (phenotypeRules : String → Option DrugRules) (vcfContent drug modeRaw s : String)
    (uuid ts : String) (rand : ℚ) :
    (missResponse dgm gvm phenotypeRules vcfContent drug modeRaw (some s) uuid ts
      rand).llm_generated_explanation = { summary := s } := rfl

theorem analyzeMiss_snd_lookup {dgm : String → Option String} {gvm : String → Option GeneMap}
    {phenotypeRules : String → Option DrugRules} {cache : Cache}
    {vcfContent drug modeRaw : String} {llmOutcome : Option String} {uuid ts : String}
    {rand : ℚ} {key : String} {resp : AnalyzeResponse}
    (h2 : cacheGet (analyzeMiss dgm gvm phenotypeRules cache vcfContent drug modeRaw
      llmOutcome uuid ts rand).2 key = some resp) :
    cacheGet cache key = some resp
      ∨ strIncludes resp.llm_generated_explanation.summary FAILURE_MARKER = false := by
  unfold analyzeMiss at h2
  by_cases hmark : strIncludes (missResponse dgm gvm phenotypeRules vcfContent drug
      modeRaw llmOutcome uuid ts rand).llm_generated_explanation.summary FAILURE_MARKER
  · rw [if_pos hmark] at h2
    exact Or.inl h2
  · rw [if_neg hmark] at h2
    simp only [] at h2
    by_cases hk : key = requestKey vcfContent drug modeRaw
    · subst hk
      rw [cacheGet_cacheSet_self] at h2
      cases h2
      exact Or.inr (by simpa using hmark)
    · rw [cacheGet_cacheSet_ne _ _ _ _ hk] at h2
      exact Or.inl h2

/-- C7: the cache never serves a failed explanation — (1) after any
request, every entry of the resulting cache either was already present or
has a summary free of the failure marker (a response is stored under its
key only if its explanation did not fail); (2) a physically present entry
whose stored summary contains the marker is treated as a miss: the request
proceeds and returns a response with `cache_status = "MISS"`. -/
theorem c7_store_and_hit :
    (∀ (dgm : String → Option String) (gvm : String → Option GeneMap)
        (phenotypeRules : String → Option DrugRules) (cache : Cache) (file : Option String)
        (drug modeRaw : String) (llmOutcome : Option String) (uuid ts : String) (rand : ℚ)
        (key : String) (resp : AnalyzeResponse),
      cacheGet (analyze dgm gvm phenotypeRules cache file drug modeRaw llmOutcome uuid ts rand).2 key
          = some resp →
      cacheGet cache key = some resp
        ∨ strIncludes resp.llm_generated_explanation.summary FAILURE_MARKER = false)
    ∧ (∀ (dgm : String → Option String) (gvm : String → Option GeneMap)
        (phenotypeRules : String → Option DrugRules) (cache : Cache)
        (vcfContent drug modeRaw : String) (llmOutcome : Option String) (uuid ts : String)
        (rand : ℚ) (c : AnalyzeResponse),
      drug ≠ "" →
      cacheGet cache (requestKey vcfContent drug modeRaw) = some c →
      strIncludes c.llm_generated_explanation.summary FAILURE_MARKER = true →
      ∃ resp, (analyze dgm gvm phenotypeRules cache (some vcfContent) drug modeRaw llmOutcome
          uuid ts rand).1 = .ok resp ∧ resp.cache_status = "MISS") := by
  constructor
  · intro dgm gvm phenotypeRules cache file drug modeRaw llmOutcome uuid ts rand key resp h
    unfold analyze at h
    cases file with
    | none => exact Or.inl h
    | some vcfContent =>
      simp only [] at h
      by_cases hd : drug = ""
      · rw [if_pos hd] at h
        exact Or.inl h
      · rw [if_neg hd] at h
        cases hc : cacheGet cache (requestKey vcfContent drug modeRaw) with
        | some cachedResult =>
          rw [hc] at h
          simp only [] at h
          by_cases hv : validCacheEntry cachedResult
          · rw [if_pos hv] at h
            exact Or.inl h
          · rw [if_neg hv] at h
            exact analyzeMiss_snd_lookup h
        | none =>
          rw [hc] at h
          simp only [] at h
          exact analyzeMiss_snd_lookup h
  · intro dgm gvm phenotypeRules cache vcfContent drug modeRaw llmOutcome uuid ts rand c
      hd hc hmark
    unfold analyze
    simp only []
    rw [if_neg hd, hc]
    simp only []
    have hv : validCacheEntry c = false := by
      simp [validCacheEntry, hmark]
    rw [if_neg (by simp [hv])]
    refine ⟨missResponse dgm gvm phenotypeRules vcfContent drug modeRaw llmOutcome uuid ts rand,
      ?_, rfl⟩
    unfold analyzeMiss
    split_ifs <;> rfl



/-- A stored response whose summary is the failure fallback text. -/
def c7FailedResp : AnalyzeResponse :=
  { patient_id := "p0", drug := "X", timestamp := "t0", mode := "patient",
    risk_assessment := { level := "Unknown", confidence_score := 1/2 },
    pharmacogenomic_profile :=
      { gene := none, phenotype := some "Unknown",
        detected_variant := none, total_variants_found := 0, signature_hash := "sig" },
    clinical_recommendation := "Drug not supported or mapped to a gene.",
    llm_generated_explanation := { summary := "Explanation temporarily unavailable." },
    explainability_tree :=
      { drug := "X", gene := none, variant := "None",
        phenotype := some "Unknown", risk := "Unknown",
        recommendation := "Drug not supported or mapped to a gene." },
    genomic_signature_id := "sig",
    quality_metrics := { vcf_quality := "PASS", genotype_completeness := "Low" },
    cache_status := "MISS" }

/-- C7 witness: a cache holding a failure-marked entry under the own key
of the request yields a MISS response. -/
theorem c7_store_and_hit_witness :
    ∃ resp, (analyze (fun _ => none) (fun _ => none) (fun _ => none)
        (cacheSet [] (requestKey "" "X" "") c7FailedResp) (some "") "X" "" none "u" "t" 0).1
        = .ok resp ∧ resp.cache_status = "MISS" :=
  c7_store_and_hit.2 (fun _ => none) (fun _ => none) (fun _ => none)
    (cacheSet [] (requestKey "" "X" "") c7FailedResp) "" "X" "" none "u" "t" 0 c7FailedResp
    (by decide) (cacheGet_cacheSet_self [] _ _) (by decide)

/-- C8: cache round-trip — for two identical requests (same file bytes,
drug and mode) where the key is initially absent and the explanation
generation of the first request succeeds (a summary that is non-empty and free of
the failure marker), the first response carries `cache_status = "MISS"`,
the second `"HIT"`, and every other response field except
`confidence_score` and `timestamp` (and the `cache_status` just described)
is identical between the two responses. -/
theorem c8_cache_roundtrip (dgm : String → Option String) (gvm : String → Option GeneMap)
    (phenotypeRules : String → Option DrugRules) (cache : Cache)
    (vcfContent drug modeRaw s uuid1 ts1 : String) (rand1 : ℚ)
    (llm2 : Option String) (uuid2 ts2 : String) (rand2 : ℚ)
    (hd : drug ≠ "")
    (hmiss : cacheGet cache (requestKey vcfContent drug modeRaw) = none)
    (hs1 : strIncludes s FAILURE_MARKER = false) (hs2 : s ≠ "") :
    ∃ resp1 cache1 resp2,
      analyze dgm gvm phenotypeRules cache (some vcfContent) drug modeRaw (some s) uuid1 ts1 rand1
        = (.ok resp1, cache1)
      ∧ analyze dgm gvm phenotypeRules cache1 (some vcfContent) drug modeRaw llm2 uuid2 ts2 rand2
        = (.ok resp2, cache1)
      ∧ resp1.cache_status = "MISS" ∧ resp2.cache_status = "HIT"
      ∧ resp2.patient_id = resp1.patient_id
      ∧ resp2.drug = resp1.drug
      ∧ resp2.mode = resp1.mode
      ∧ resp2.risk_assessment.level = resp1.risk_assessment.level
      ∧ resp2.pharmacogenomic_profile = resp1.pharmacogenomic_profile
      ∧ resp2.clinical_recommendation = resp1.clinical_recommendation
      ∧ resp2.llm_generated_explanation = resp1.llm_generated_explanation
      ∧ resp2.explainability_tree = resp1.explainability_tree
      ∧ resp2.genomic_signature_id = resp1.genomic_signature_id
      ∧ resp2.quality_metrics = resp1.quality_metrics := by
  have e1 : analyze dgm gvm phenotypeRules cache (some vcfContent) drug modeRaw (some s)
      uuid1 ts1 rand1
      = (.ok (missResponse dgm gvm phenotypeRules vcfContent drug modeRaw (some s) uuid1 ts1 rand1),
        cacheSet cache (requestKey vcfContent drug modeRaw)
          (missResponse dgm gvm phenotypeRules vcfContent drug modeRaw (some s) uuid1 ts1 rand1)) := by
    unfold analyze
    simp only []
    rw [if_neg hd, hmiss]
    simp only []
    unfold analyzeMiss
    rw [if_neg (by simp [missResponse_summary, hs1])]
  have hvalid : validCacheEntry (missResponse dgm gvm phenotypeRules vcfContent drug modeRaw
      (some s) uuid1 ts1 rand1) = true := by
    simp [validCacheEntry, missResponse_summary, hs1, hs2]
  have e2 : analyze dgm gvm phenotypeRules
      (cacheSet cache (requestKey vcfContent drug modeRaw)
        (missResponse dgm gvm phenotypeRules vcfContent drug modeRaw (some s) uuid1 ts1 rand1))
      (some vcfContent) drug modeRaw llm2 uuid2 ts2 rand2
      = (.ok (hitResponse (missResponse dgm gvm phenotypeRules vcfContent drug modeRaw (some s)
          uuid1 ts1 rand1) ts2 rand2),
        cacheSet cache (requestKey vcfContent drug modeRaw)
          (missResponse dgm gvm phenotypeRules vcfContent drug modeRaw (some s) uuid1 ts1 rand1)) := by
    unfold analyze
    simp only []
    rw [if_neg hd, cacheGet_cacheSet_self]
    simp only []
    rw [hvalid]
    simp
  exact ⟨_, _, _, e1, e2, rfl, rfl, rfl, rfl, rfl, rfl, rfl, rfl, rfl, rfl, rfl, rfl⟩

/-- C8 witness: the round trip at concrete inputs (empty tables, empty
VCF, drug `X`, successful first generation, failing second generation —
which the hit never consults). -/
theorem c8_cache_roundtrip_witness :
    ∃ resp1 cache1 resp2,
      analyze (fun _ => none) (fun _ => none) (fun _ => none) [] (some "") "X" "" (some "All clear.")
          "u1" "t1" 0 = (.ok resp1, cache1)
      ∧ analyze (fun _ => none) (fun _ => none) (fun _ => none) cache1 (some "") "X" "" none
          "u2" "t2" 0 = (.ok resp2, cache1)
      ∧ resp1.cache_status = "MISS" ∧ resp2.cache_status = "HIT"
      ∧ resp2.patient_id = resp1.patient_id
      ∧ resp2.drug = resp1.drug
      ∧ resp2.mode = resp1.mode
      ∧ resp2.risk_assessment.level = resp1.risk_assessment.level
      ∧ resp2.pharmacogenomic_profile = resp1.pharmacogenomic_profile
      ∧ resp2.clinical_recommendation = resp1.clinical_recommendation
      ∧ resp2.llm_generated_explanation = resp1.llm_generated_explanation
      ∧ resp2.explainability_tree = resp1.explainability_tree
      ∧ resp2.genomic_signature_id = resp1.genomic_signature_id
      ∧ resp2.quality_metrics = resp1.quality_metrics :=
  c8_cache_roundtrip (fun _ => none) (fun _ => none) (fun _ => none) [] "" "X" "" "All clear."
    "u1" "t1" 0 none "u2" "t2" 0 (by decide) rfl (by decide) (by decide)


def c9Run1 : AnalyzeResult × Cache :=
  analyze (fun _ => none) (fun _ => none) (fun _ => none) [] (some "") "X" ""
    (some "All clear.") "uuid-1" "t1" 0

def c9Run2 : AnalyzeResult × Cache :=
  analyze (fun _ => none) (fun _ => none) (fun _ => none) c9Run1.2 (some "") "X" ""
    (some "All clear.") "uuid-2" "t2" 0

def okPatientId : AnalyzeResult → Option String
  | .ok r => some r.patient_id
  | .clientError _ => none

def okCacheStatus : AnalyzeResult → Option String
  | .ok r => some r.cache_status
  | .clientError _ => none

/-- C9 counterexample: the claim says every 200 response carries a
freshly generated patient_id, including a cache-hit response.  Concretely:
the oracle UUID of the first request is "uuid-1" and that of the
identical second request is "uuid-2", yet the second (HIT) response carries
"uuid-1" — the patient_id stored in the cached payload is reused, not
freshly generated. -/
theorem c9_counterexample :
    okPatientId c9Run1.1 = some "uuid-1"
      ∧ okCacheStatus c9Run2.1 = some "HIT"
      ∧ okPatientId c9Run2.1 = some "uuid-1"
      ∧ "uuid-1" ≠ "uuid-2" := by
  refine ⟨by decide, by decide, by decide, by decide⟩

/-- C9 (amended): a `patient_id` is freshly generated per request only on
the MISS path (where it equals the `randomUUID()` draw of the request); a
cache-HIT response reuses the `patient_id` stored in the cached payload. -/
theorem c9_patient_id :
    (∀ (dgm : String → Option String) (gvm : String → Option GeneMap)
        (phenotypeRules : String → Option DrugRules) (cache : Cache)
        (vcfContent drug modeRaw : String) (llmOutcome : Option String)
        (uuid ts : String) (rand : ℚ),
      drug ≠ "" →
      cacheGet cache (requestKey vcfContent drug modeRaw) = none →
      ∃ resp cache2,
        analyze dgm gvm phenotypeRules cache (some vcfContent) drug modeRaw llmOutcome uuid ts rand
          = (.ok resp, cache2) ∧ resp.patient_id = uuid)
    ∧ (∀ (dgm : String → Option String) (gvm : String → Option GeneMap)
        (phenotypeRules : String → Option DrugRules) (cache : Cache)
        (vcfContent drug modeRaw : String) (llmOutcome : Option String)
        (uuid ts : String) (rand : ℚ) (c : AnalyzeResponse),
      drug ≠ "" →
      cacheGet cache (requestKey vcfContent drug modeRaw) = some c →
      validCacheEntry c = true →
      (analyze dgm gvm phenotypeRules cache (some vcfContent) drug modeRaw llmOutcome uuid ts rand).1
          = .ok (hitResponse c ts rand)
        ∧ (hitResponse c ts rand).patient_id = c.patient_id) := by
  constructor
  · intro dgm gvm phenotypeRules cache vcfContent drug modeRaw llmOutcome uuid ts rand hd hnone
    unfold analyze
    simp only []
    rw [if_neg hd, hnone]
    simp only []
    unfold analyzeMiss
    split_ifs
    · exact ⟨_, _, rfl, rfl⟩
    · exact ⟨_, _, rfl, rfl⟩
  · intro dgm gvm phenotypeRules cache vcfContent drug modeRaw llmOutcome uuid ts rand c
      hd hc hv
    unfold analyze
    simp only []
    rw [if_neg hd, hc]
    simp only []
    rw [hv]
    exact ⟨rfl, rfl⟩

/-- C9 witness: the MISS path at concrete inputs returns the fresh
oracle UUID. -/
theorem c9_patient_id_witness :
    ∃ resp cache2,
      analyze (fun _ => none) (fun _ => none) (fun _ => none) [] (some "") "X" "" (some "ok")
        "u9" "t9" 0 = (.ok resp, cache2) ∧ resp.patient_id = "u9" :=
  c9_patient_id.1 (fun _ => none) (fun _ => none) (fun _ => none) [] "" "X" "" (some "ok")
    "u9" "t9" 0 (by decide) rfl


end Rift26
